import Mathlib

/-!
Shallow embedding of the `dnspod` package (file `domains.go`): the domain and
DNS-record services of a dnspod API client.  Pure payload builders become Lean
functions over an entries-list model of Go's `url.Values`; each remote
operation becomes a function of the transport collaborator, modelled as a
function from the outgoing payload to a transport outcome (decoded body,
response descriptor, error).  `json.Number` is an opaque text type and is
modelled as `String`; Go's `int` is `Int` and `strconv.Itoa` is `toString`.
-/

namespace Dnspod

/-- Go `error` values at this layer are only compared and propagated, so a
plain message string suffices; `nil` is `Option.none`. -/
abbrev GoError := String

/-- Modelled from the spec: the transport's response descriptor (`*Response`)
is a black box at this layer ("a raw response plus decoded body").  A Go
pointer is `Option Response`; `nil` is `none`. -/
structure Response where
  tag : Nat
deriving DecidableEq

/-- Go's `url.Values` is a multimap from string keys to string values; since
the spec declares field order not semantically significant, we model it as the
list of inserted entries. -/
abbrev Values := List (String × String)

/-- `url.Values.Set`: replace any existing values for the key with the single
given value. -/
def Values.set (p : Values) (k v : String) : Values :=
  p.filter (fun e => !(e.1 == k)) ++ [(k, v)]

/-- `url.Values.Add`: append the value to those already stored for the key. -/
def Values.add (p : Values) (k v : String) : Values :=
  p ++ [(k, v)]

/-- Whether the key appears in the payload at all. -/
def Values.has (p : Values) (k : String) : Bool :=
  p.any (fun e => e.1 == k)

/-- The values stored for a key, in insertion order. -/
def Values.get (p : Values) (k : String) : List String :=
  (p.filter (fun e => e.1 == k)).map Prod.snd

/-- Modelled from the spec: `CommonParams` and its `toPayLoad` are not under
`src/`; the spec says only that common parameters (account/authentication
identifiers and a requested output format) are "merged into every payload
ahead of operation-specific fields".  We model the block as an abstract list
of key-value pairs that `toPayLoad` emits verbatim. -/
structure CommonParams where
  params : Values

def CommonParams.toPayLoad (c : CommonParams) : Values := c.params

/-- Modelled from the spec: the shared `Status` envelope block, "a code
(string, success sentinel `"1"`) and a message (string)". -/
structure Status where
  Code : String
  Message : String
deriving DecidableEq

/-- `DomainInfo` from `domains.go` (all fields are `json.Number`, modelled as
opaque text). -/
structure DomainInfo where
  DomainTotal : String := ""
  AllTotal : String := ""
  MineTotal : String := ""
  ShareTotal : String := ""
  VipTotal : String := ""
  IsMarkTotal : String := ""
  PauseTotal : String := ""
  ErrorTotal : String := ""
  LockTotal : String := ""
  SpamTotal : String := ""
  VipExpire : String := ""
  ShareOutTotal : String := ""
deriving DecidableEq

/-- The Go zero value `DomainInfo{}`. -/
def DomainInfo.zero : DomainInfo := {}

/-- `Domain` from `domains.go`.  `ID` and `GroupID` are `json.Number`
(opaque text). -/
structure Domain where
  ID : String := ""
  Name : String := ""
  PunyCode : String := ""
  Grade : String := ""
  GradeTitle : String := ""
  Status : String := ""
  ExtStatus : String := ""
  Records : String := ""
  GroupID : String := ""
  IsMark : String := ""
  Remark : String := ""
  IsVIP : String := ""
  SearchenginePush : String := ""
  UserID : String := ""
  CreatedOn : String := ""
  UpdatedOn : String := ""
  TTL : String := ""
  CNameSpeedUp : String := ""
  Owner : String := ""
  AuthToAnquanBao : Bool := false
deriving DecidableEq

/-- The Go zero value `Domain{}`. -/
def Domain.zero : Domain := {}

/-- `domainListWrapper` from `domains.go`. -/
structure domainListWrapper where
  Status : Status
  Info : DomainInfo
  Domains : List Domain
deriving DecidableEq

/-- `domainWrapper` from `domains.go`. -/
structure domainWrapper where
  Status : Status
  Info : DomainInfo
  Domain : Domain
deriving DecidableEq

/-- `domainLogWrapper` from `domains.go`. -/
structure domainLogWrapper where
  Status : Status
  Log : List String
deriving DecidableEq

/-- `Record` from `domains.go`; the Go field `Type` is written `Type'` since
`Type` is reserved in Lean. -/
structure Record where
  ID : String := ""
  Name : String := ""
  Line : String := ""
  LineID : String := ""
  Type' : String := ""
  TTL : String := ""
  Value : String := ""
  MX : String := ""
  Enabled : String := ""
  Status : String := ""
  MonitorStatus : String := ""
  Remark : String := ""
  UpdateOn : String := ""
  UseAQB : String := ""
deriving DecidableEq

/-- The Go zero value `Record{}`. -/
def Record.zero : Record := {}

/-- `recordsWrapper` from `domains.go`. -/
structure recordsWrapper where
  Status : Status
  Info : DomainInfo
  Records : List Record
deriving DecidableEq

/-- `recordWrapper` from `domains.go`. -/
structure recordWrapper where
  Status : Status
  Info : DomainInfo
  Record : Record
deriving DecidableEq

/-- Modelled from the spec: the outcome of one call to the transport
collaborator `Client.post` (not under `src/`): the response descriptor, the
final state of the caller-supplied decode target (pre-initialised to the zero
value, possibly partially filled), and the transport error if any. -/
structure PostOutcome (α : Type) where
  res : Option Response
  body : α
  err : Option GoError

/-- The transport collaborator for an operation decoding into `α`: given the
outgoing payload it produces an outcome. -/
abbrev Post (α : Type) := Values → PostOutcome α

/-- `DomainLogRequest` from `domains.go` (embeds `CommonParams`; `Offset` and
`Length` are Go `int`). -/
structure DomainLogRequest where
  CommonParams : CommonParams
  DomainId : String := ""
  Domain : String := ""
  Offset : Int := 0
  Length : Int := 0

/-- `DomainLogRequest.toPayLoad` from `domains.go`. -/
def DomainLogRequest.toPayLoad (c : DomainLogRequest) : Values :=
  let p := c.CommonParams.toPayLoad
  let p := if c.DomainId ≠ "" then p.set "domain_id" c.DomainId
           else p.set "domain" c.Domain
  let p := if c.Offset ≠ 0 then p.set "offset" (toString c.Offset) else p
  let p := if c.Length ≠ 0 then p.set "length" (toString c.Length) else p
  p

/-- `DomainListRequest` from `domains.go`. -/
structure DomainListRequest where
  CommonParams : CommonParams
  Type' : String := ""
  Offset : String := ""
  Length : String := ""
  GroupId : String := ""
  Keyword : String := ""

/-- `DomainListRequest.toPayLOad` from `domains.go`. -/
def DomainListRequest.toPayLOad (c : DomainListRequest) : Values :=
  let p := c.CommonParams.toPayLoad
  let p := if c.Type' ≠ "" then p.set "type" c.Type' else p
  let p := if c.Offset ≠ "" then p.set "offset" c.Offset else p
  let p := if c.Length ≠ "" then p.set "length" c.Length else p
  let p := if c.GroupId ≠ "" then p.set "group_id" c.GroupId else p
  let p := if c.Keyword ≠ "" then p.set "keyword" c.Keyword else p
  p

/-- `RecordListRequest` from `domains.go`. -/
structure RecordListRequest where
  CommonParams : CommonParams
  DomainId : String := ""
  Domain : String := ""
  Offset : String := ""
  Length : String := ""
  SubDomain : String := ""
  RecordType : String := ""
  RecordLine : String := ""
  RecordLIneId : String := ""
  KeyWord : String := ""

/-- `RecordListRequest.toPayLOad` from `domains.go` (note: `domain_id` and
`domain` are added by two independent `if`s, with no `else`). -/
def RecordListRequest.toPayLOad (r : RecordListRequest) : Values :=
  let p := r.CommonParams.toPayLoad
  let p := if r.DomainId ≠ "" then p.add "domain_id" r.DomainId else p
  let p := if r.Domain ≠ "" then p.add "domain" r.Domain else p
  let p := if r.Offset ≠ "" then p.add "offset" r.Offset else p
  let p := if r.Length ≠ "" then p.add "length" r.Length else p
  let p := if r.SubDomain ≠ "" then p.add "sub_domain" r.SubDomain else p
  let p := if r.RecordType ≠ "" then p.add "record_type" r.RecordType else p
  let p := if r.RecordLine ≠ "" then p.add "record_line" r.RecordLine else p
  let p := if r.RecordLIneId ≠ "" then p.add "record_line_id" r.RecordLIneId else p
  let p := if r.KeyWord ≠ "" then p.add "keyword" r.KeyWord else p
  p

/-- Result type of `DomainsService.List`: (`[]Domain`, `*Response`, `error`);
the `nil` slice is `[]`. -/
abbrev DomainListResult := List Domain × Option Response × Option GoError

/-- `DomainsService.List` from `domains.go`. -/
def DomainsService.List (request : DomainListRequest)
    (post : Post domainListWrapper) : DomainListResult :=
  let payLoad := request.toPayLOad
  let o := post payLoad
  match o.err with
  | some err => ([], o.res, some err)
  | none =>
      if o.body.Status.Code ≠ "1" then
        ([], none, some ("could not get domains: " ++ o.body.Status.Message))
      else
        (o.body.Domains, o.res, none)

/-- The payload built inline by `DomainsService.Create` (`domains.go` lines
166-170): `domain`, `group_id`, `is_mark` are `Set` unconditionally
(`GroupID.String()` of the zero `json.Number` is `""`). -/
def DomainsService.createPayload (common : CommonParams)
    (domainAttributes : Domain) : Values :=
  let payload := common.toPayLoad
  let payload := payload.set "domain" domainAttributes.Name
  let payload := payload.set "group_id" domainAttributes.GroupID
  payload.set "is_mark" domainAttributes.IsMark

/-- `DomainsService.Create` from `domains.go`: the decoded domain is returned
with no error whether or not the status code is `"1"`. -/
def DomainsService.Create (common : CommonParams) (domainAttributes : Domain)
    (post : Post domainWrapper) : Domain × Option Response × Option GoError :=
  let o := post (DomainsService.createPayload common domainAttributes)
  match o.err with
  | some err => (Domain.zero, o.res, some err)
  | none => (o.body.Domain, o.res, none)

/-- The payload built inline by `DomainsService.Get`: common parameters plus
`domain_id` set to `strconv.Itoa(id)`. -/
def DomainsService.getPayload (common : CommonParams) (id : Int) : Values :=
  (common.toPayLoad).set "domain_id" (toString id)

/-- `DomainsService.Get` from `domains.go`: no status check. -/
def DomainsService.Get (common : CommonParams) (id : Int)
    (post : Post domainWrapper) : Domain × Option Response × Option GoError :=
  let o := post (DomainsService.getPayload common id)
  match o.err with
  | some err => (Domain.zero, o.res, some err)
  | none => (o.body.Domain, o.res, none)

/-- `DomainsService.Delete` from `domains.go`: returns `s.client.post(...)`
directly, so the transport's descriptor and error pass through unchanged and
the status code is never inspected. -/
def DomainsService.Delete (common : CommonParams) (id : Int)
    (post : Post domainWrapper) : Option Response × Option GoError :=
  let o := post (DomainsService.getPayload common id)
  (o.res, o.err)

/-- Result type of `DomainsService.Log`: (`[]string`, `error`). -/
abbrev DomainLogResult := List String × Option GoError

/-- `DomainsService.Log` from `domains.go` (the response descriptor is
discarded by the source; only log lines and the error are returned). -/
def DomainsService.Log (request : DomainLogRequest)
    (post : Post domainLogWrapper) : DomainLogResult :=
  let o := post request.toPayLoad
  match o.err with
  | some err => ([], some err)
  | none =>
      if o.body.Status.Code ≠ "1" then
        ([], some ("could not get domain logs: " ++ o.body.Status.Message))
      else
        (o.body.Log, none)

/-- Result type of `RecordsService.List`. -/
abbrev RecordListResult := List Record × Option Response × Option GoError

/-- `RecordsService.List` from `domains.go` (note the error text reuses
"could not get domains"). -/
def RecordsService.List (request : RecordListRequest)
    (post : Post recordsWrapper) : RecordListResult :=
  let payload := request.toPayLOad
  let o := post payload
  match o.err with
  | some err => ([], o.res, some err)
  | none =>
      if o.body.Status.Code ≠ "1" then
        ([], none, some ("could not get domains: " ++ o.body.Status.Message))
      else
        (o.body.Records, o.res, none)

/-- The payload built inline by `RecordsService.Create` (`domains.go` lines
351-385): `domain_id` added unconditionally, then each optional record field
added only when non-empty. -/
def RecordsService.createPayload (common : CommonParams) (domain : String)
    (recordAttributes : Record) : Values :=
  let payload := common.toPayLoad
  let payload := payload.add "domain_id" domain
  let payload := if recordAttributes.Name ≠ "" then
                   payload.add "sub_domain" recordAttributes.Name else payload
  let payload := if recordAttributes.Type' ≠ "" then
                   payload.add "record_type" recordAttributes.Type' else payload
  let payload := if recordAttributes.Line ≠ "" then
                   payload.add "record_line" recordAttributes.Line else payload
  let payload := if recordAttributes.LineID ≠ "" then
                   payload.add "record_line_id" recordAttributes.LineID else payload
  let payload := if recordAttributes.Value ≠ "" then
                   payload.add "value" recordAttributes.Value else payload
  let payload := if recordAttributes.MX ≠ "" then
                   payload.add "mx" recordAttributes.MX else payload
  let payload := if recordAttributes.TTL ≠ "" then
                   payload.add "ttl" recordAttributes.TTL else payload
  let payload := if recordAttributes.Status ≠ "" then
                   payload.add "status" recordAttributes.Status else payload
  payload

/-- `RecordsService.Create` from `domains.go`: on a non-`"1"` status the
decoded (possibly partial) record is returned with a `nil` descriptor and the
wrapped error. -/
def RecordsService.Create (common : CommonParams) (domain : String)
    (recordAttributes : Record) (post : Post recordWrapper) :
    Record × Option Response × Option GoError :=
  let o := post (RecordsService.createPayload common domain recordAttributes)
  match o.err with
  | some err => (Record.zero, o.res, some err)
  | none =>
      if o.body.Status.Code ≠ "1" then
        (o.body.Record, none,
         some ("could not get domains: " ++ o.body.Status.Message))
      else
        (o.body.Record, o.res, none)

/-- The payload built inline by `RecordsService.Get`: `domain_id` and
`record_id` added unconditionally. -/
def RecordsService.getPayload (common : CommonParams)
    (domain recordID : String) : Values :=
  ((common.toPayLoad).add "domain_id" domain).add "record_id" recordID

/-- `RecordsService.Get` from `domains.go`. -/
def RecordsService.Get (common : CommonParams) (domain recordID : String)
    (post : Post recordWrapper) : Record × Option Response × Option GoError :=
  let o := post (RecordsService.getPayload common domain recordID)
  match o.err with
  | some err => (Record.zero, o.res, some err)
  | none =>
      if o.body.Status.Code ≠ "1" then
        (o.body.Record, none,
         some ("could not get domains: " ++ o.body.Status.Message))
      else
        (o.body.Record, o.res, none)

/-- The payload built inline by `RecordsService.Update` (`domains.go` lines
426-468), preserving the source's insertion order: `record_id` from the
template's `ID` when non-empty, `sub_domain`, then the fallback `record_id`
from the `recordID` argument guarded by `ID == ""`, then the remaining
optional fields. -/
def RecordsService.updatePayload (common : CommonParams)
    (domain recordID : String) (recordAttributes : Record) : Values :=
  let payload := common.toPayLoad
  let payload := payload.add "domain_id" domain
  let payload := if recordAttributes.ID ≠ "" then
                   payload.add "record_id" recordAttributes.ID else payload
  let payload := if recordAttributes.Name ≠ "" then
                   payload.add "sub_domain" recordAttributes.Name else payload
  let payload := if recordAttributes.ID = "" ∧ recordID ≠ "" then
                   payload.add "record_id" recordID else payload
  let payload := if recordAttributes.Type' ≠ "" then
                   payload.add "record_type" recordAttributes.Type' else payload
  let payload := if recordAttributes.Line ≠ "" then
                   payload.add "record_line" recordAttributes.Line else payload
  let payload := if recordAttributes.LineID ≠ "" then
                   payload.add "record_line_id" recordAttributes.LineID else payload
  let payload := if recordAttributes.Value ≠ "" then
                   payload.add "value" recordAttributes.Value else payload
  let payload := if recordAttributes.MX ≠ "" then
                   payload.add "mx" recordAttributes.MX else payload
  let payload := if recordAttributes.TTL ≠ "" then
                   payload.add "ttl" recordAttributes.TTL else payload
  let payload := if recordAttributes.Status ≠ "" then
                   payload.add "status" recordAttributes.Status else payload
  payload

/-- `RecordsService.Update` from `domains.go`: on a non-`"1"` status the
partially decoded record is returned alongside the error. -/
def RecordsService.Update (common : CommonParams) (domain recordID : String)
    (recordAttributes : Record) (post : Post recordWrapper) :
    Record × Option Response × Option GoError :=
  let o := post (RecordsService.updatePayload common domain recordID recordAttributes)
  match o.err with
  | some err => (Record.zero, o.res, some err)
  | none =>
      if o.body.Status.Code ≠ "1" then
        (o.body.Record, none,
         some ("could not get domains: " ++ o.body.Status.Message))
      else
        (o.body.Record, o.res, none)

/-- The payload built inline by `RecordsService.Remark` (`domains.go` lines
487-501): `record_id` from the template's `ID` when non-empty, the fallback
`record_id` guarded by `ID == ""`, then `remark` when non-empty. -/
def RecordsService.remarkPayload (common : CommonParams)
    (domain recordID : String) (recordAttributes : Record) : Values :=
  let payload := common.toPayLoad
  let payload := payload.add "domain_id" domain
  let payload := if recordAttributes.ID ≠ "" then
                   payload.add "record_id" recordAttributes.ID else payload
  let payload := if recordAttributes.ID = "" ∧ recordID ≠ "" then
                   payload.add "record_id" recordID else payload
  let payload := if recordAttributes.Remark ≠ "" then
                   payload.add "remark" recordAttributes.Remark else payload
  payload

/-- `RecordsService.Remark` from `domains.go`. -/
def RecordsService.Remark (common : CommonParams) (domain recordID : String)
    (recordAttributes : Record) (post : Post recordWrapper) :
    Record × Option Response × Option GoError :=
  let o := post (RecordsService.remarkPayload common domain recordID recordAttributes)
  match o.err with
  | some err => (Record.zero, o.res, some err)
  | none =>
      if o.body.Status.Code ≠ "1" then
        (o.body.Record, none,
         some ("could not get domains: " ++ o.body.Status.Message))
      else
        (o.body.Record, o.res, none)

/-- `RecordsService.Delete` from `domains.go`. -/
def RecordsService.Delete (common : CommonParams) (domain recordID : String)
    (post : Post recordWrapper) : Option Response × Option GoError :=
  let o := post (RecordsService.getPayload common domain recordID)
  match o.err with
  | some err => (o.res, some err)
  | none =>
      if o.body.Status.Code ≠ "1" then
        (none, some ("could not get domains: " ++ o.body.Status.Message))
      else
        (o.res, none)

/-! ### Helper lemmas about the `url.Values` model -/

/-- A single optional entry: present with its exact value iff the field is
non-empty. -/
def optEntry (k v : String) : Values :=
  if v ≠ "" then [(k, v)] else []

theorem Values.get_append (p q : Values) (k : String) :
    (p ++ q).get k = p.get k ++ q.get k := by
  simp [Values.get, List.filter_append]

theorem Values.has_append (p q : Values) (k : String) :
    (p ++ q).has k = (p.has k || q.has k) := by
  simp [Values.has]

theorem Values.condAdd (p : Values) (c : Prop) [Decidable c] (k v : String) :
    (if c then p.add k v else p) = p ++ (if c then [(k, v)] else []) := by
  split <;> simp [Values.add]

theorem Values.condAppend (p : Values) (c : Prop) [Decidable c]
    (k v : String) :
    (if c then p ++ [(k, v)] else p) = p ++ (if c then [(k, v)] else []) := by
  split <;> simp

theorem Values.get_set_self (p : Values) (k v : String) :
    (p.set k v).get k = [v] := by
  induction p with
  | nil => simp [Values.set, Values.get]
  | cons e p ih =>
      by_cases he : e.1 == k <;>
        simp_all [Values.set, Values.get, List.filter_cons]

theorem Values.get_set_ne (p : Values) (k v k' : String)
    (h : (k == k') = false) : (p.set k v).get k' = p.get k' := by
  induction p with
  | nil => simp [Values.set, Values.get, h]
  | cons e p ih =>
      by_cases he : e.1 == k <;>
        by_cases he' : e.1 == k' <;>
          simp_all [Values.set, Values.get, List.filter_cons]

theorem Values.get_condSet_ne (p : Values) (c : Prop) [Decidable c]
    (k v k' : String) (h : (k == k') = false) :
    (if c then p.set k v else p).get k' = p.get k' := by
  split
  · exact Values.get_set_ne p k v k' h
  · rfl

/-! ### Characterizations of the payload builders -/

theorem get_nil (k : String) : Values.get [] k = [] := by
  simp [Values.get]

theorem get_single_self (k v : String) : Values.get [(k, v)] k = [v] := by
  simp [Values.get]

theorem get_cons (e : String × String) (p : Values) (k : String) :
    Values.get (e :: p) k = (if e.1 == k then [e.2] else []) ++ p.get k := by
  simp only [Values.get, List.filter_cons]
  split <;> simp

theorem get_optEntry_self (k v : String) :
    (optEntry k v).get k = if v ≠ "" then [v] else [] := by
  simp only [optEntry]
  split <;> simp [Values.get]

theorem get_optEntry_ne (k v k' : String) (h : (k == k') = false) :
    (optEntry k v).get k' = [] := by
  simp only [optEntry]
  split <;> simp [Values.get, h]

/-- `DomainLogRequest.toPayLoad` on `domain_id`: set iff `DomainId` is
non-empty; otherwise only the common block can carry it. -/
theorem domainLog_get_domain_id (c : DomainLogRequest) :
    c.toPayLoad.get "domain_id" =
      if c.DomainId ≠ "" then [c.DomainId]
      else c.CommonParams.toPayLoad.get "domain_id" := by
  simp only [DomainLogRequest.toPayLoad]
  rw [Values.get_condSet_ne _ _ _ _ _ (by simp),
      Values.get_condSet_ne _ _ _ _ _ (by simp)]
  split
  · exact Values.get_set_self _ _ _
  · rw [Values.get_set_ne _ _ _ _ (by simp)]

/-- `DomainLogRequest.toPayLoad` on `domain`: whenever `DomainId` is empty
the `domain` key is set to `Domain` — even when `Domain` is itself empty. -/
theorem domainLog_get_domain (c : DomainLogRequest) :
    c.toPayLoad.get "domain" =
      if c.DomainId ≠ "" then c.CommonParams.toPayLoad.get "domain"
      else [c.Domain] := by
  simp only [DomainLogRequest.toPayLoad]
  rw [Values.get_condSet_ne _ _ _ _ _ (by simp),
      Values.get_condSet_ne _ _ _ _ _ (by simp)]
  split
  · rw [Values.get_set_ne _ _ _ _ (by simp)]
  · exact Values.get_set_self _ _ _

/-- `DomainLogRequest.toPayLoad` on `offset`: set, in decimal string form,
iff `Offset` is non-zero. -/
theorem domainLog_get_offset (c : DomainLogRequest) :
    c.toPayLoad.get "offset" =
      if c.Offset ≠ 0 then [toString c.Offset]
      else c.CommonParams.toPayLoad.get "offset" := by
  simp only [DomainLogRequest.toPayLoad]
  rw [Values.get_condSet_ne _ _ _ _ _ (by simp)]
  split
  · exact Values.get_set_self _ _ _
  · split
    · rw [Values.get_set_ne _ _ _ _ (by simp)]
    · rw [Values.get_set_ne _ _ _ _ (by simp)]

/-- `DomainLogRequest.toPayLoad` on `length`: set, in decimal string form,
iff `Length` is non-zero. -/
theorem domainLog_get_length (c : DomainLogRequest) :
    c.toPayLoad.get "length" =
      if c.Length ≠ 0 then [toString c.Length]
      else c.CommonParams.toPayLoad.get "length" := by
  simp only [DomainLogRequest.toPayLoad]
  split
  · exact Values.get_set_self _ _ _
  · rw [Values.get_condSet_ne _ _ _ _ _ (by simp)]
    split
    · rw [Values.get_set_ne _ _ _ _ (by simp)]
    · rw [Values.get_set_ne _ _ _ _ (by simp)]

/-- `DomainListRequest.toPayLOad` on `type`: set iff `Type` is non-empty. -/
theorem domainList_get_type (c : DomainListRequest) :
    c.toPayLOad.get "type" =
      if c.Type' ≠ "" then [c.Type']
      else c.CommonParams.toPayLoad.get "type" := by
  simp only [DomainListRequest.toPayLOad]
  rw [Values.get_condSet_ne _ _ _ _ _ (by simp),
      Values.get_condSet_ne _ _ _ _ _ (by simp),
      Values.get_condSet_ne _ _ _ _ _ (by simp),
      Values.get_condSet_ne _ _ _ _ _ (by simp)]
  split
  · exact Values.get_set_self _ _ _
  · rfl

/-- `DomainListRequest.toPayLOad` on `offset`: set iff `Offset` is
non-empty. -/
theorem domainList_get_offset (c : DomainListRequest) :
    c.toPayLOad.get "offset" =
      if c.Offset ≠ "" then [c.Offset]
      else c.CommonParams.toPayLoad.get "offset" := by
  simp only [DomainListRequest.toPayLOad]
  rw [Values.get_condSet_ne _ _ _ _ _ (by simp),
      Values.get_condSet_ne _ _ _ _ _ (by simp),
      Values.get_condSet_ne _ _ _ _ _ (by simp)]
  split
  · exact Values.get_set_self _ _ _
  · rw [Values.get_condSet_ne _ _ _ _ _ (by simp)]

/-- `DomainListRequest.toPayLOad` on `length`: set iff `Length` is
non-empty. -/
theorem domainList_get_length (c : DomainListRequest) :
    c.toPayLOad.get "length" =
      if c.Length ≠ "" then [c.Length]
      else c.CommonParams.toPayLoad.get "length" := by
  simp only [DomainListRequest.toPayLOad]
  rw [Values.get_condSet_ne _ _ _ _ _ (by simp),
      Values.get_condSet_ne _ _ _ _ _ (by simp)]
  split
  · exact Values.get_set_self _ _ _
  · rw [Values.get_condSet_ne _ _ _ _ _ (by simp),
        Values.get_condSet_ne _ _ _ _ _ (by simp)]

/-- `DomainListRequest.toPayLOad` on `group_id`: set iff `GroupId` is
non-empty. -/
theorem domainList_get_group_id (c : DomainListRequest) :
    c.toPayLOad.get "group_id" =
      if c.GroupId ≠ "" then [c.GroupId]
      else c.CommonParams.toPayLoad.get "group_id" := by
  simp only [DomainListRequest.toPayLOad]
  rw [Values.get_condSet_ne _ _ _ _ _ (by simp)]
  split
  · exact Values.get_set_self _ _ _
  · rw [Values.get_condSet_ne _ _ _ _ _ (by simp),
        Values.get_condSet_ne _ _ _ _ _ (by simp),
        Values.get_condSet_ne _ _ _ _ _ (by simp)]

/-- `DomainListRequest.toPayLOad` on `keyword`: set iff `Keyword` is
non-empty. -/
theorem domainList_get_keyword (c : DomainListRequest) :
    c.toPayLOad.get "keyword" =
      if c.Keyword ≠ "" then [c.Keyword]
      else c.CommonParams.toPayLoad.get "keyword" := by
  simp only [DomainListRequest.toPayLOad]
  split
  · exact Values.get_set_self _ _ _
  · rw [Values.get_condSet_ne _ _ _ _ _ (by simp),
        Values.get_condSet_ne _ _ _ _ _ (by simp),
        Values.get_condSet_ne _ _ _ _ _ (by simp),
        Values.get_condSet_ne _ _ _ _ _ (by simp)]

/-- `DomainsService.createPayload` always carries `domain`, `group_id` and
`is_mark`, each set to the (possibly empty) field value. -/
theorem createPayload_gets (common : CommonParams) (attrs : Domain) :
    (DomainsService.createPayload common attrs).get "domain" = [attrs.Name]
    ∧ (DomainsService.createPayload common attrs).get "group_id" = [attrs.GroupID]
    ∧ (DomainsService.createPayload common attrs).get "is_mark" = [attrs.IsMark] := by
  refine ⟨?_, ?_, ?_⟩ <;> simp only [DomainsService.createPayload]
  · rw [Values.get_set_ne _ _ _ _ (by simp),
        Values.get_set_ne _ _ _ _ (by simp)]
    exact Values.get_set_self _ _ _
  · rw [Values.get_set_ne _ _ _ _ (by simp)]
    exact Values.get_set_self _ _ _
  · exact Values.get_set_self _ _ _

/-- `RecordListRequest.toPayLOad` in closed form: the common block followed
by one optional entry per field, each present iff non-empty. -/
theorem recordList_toPayLOad_eq (r : RecordListRequest) :
    r.toPayLOad = r.CommonParams.toPayLoad
      ++ optEntry "domain_id" r.DomainId
      ++ optEntry "domain" r.Domain
      ++ optEntry "offset" r.Offset
      ++ optEntry "length" r.Length
      ++ optEntry "sub_domain" r.SubDomain
      ++ optEntry "record_type" r.RecordType
      ++ optEntry "record_line" r.RecordLine
      ++ optEntry "record_line_id" r.RecordLIneId
      ++ optEntry "keyword" r.KeyWord := by
  simp only [RecordListRequest.toPayLOad, Values.condAdd, optEntry,
    List.append_assoc]

/-- `RecordsService.createPayload` in closed form. -/
theorem recordCreatePayload_eq (common : CommonParams) (domain : String)
    (r : Record) :
    RecordsService.createPayload common domain r = common.toPayLoad
      ++ [("domain_id", domain)]
      ++ optEntry "sub_domain" r.Name
      ++ optEntry "record_type" r.Type'
      ++ optEntry "record_line" r.Line
      ++ optEntry "record_line_id" r.LineID
      ++ optEntry "value" r.Value
      ++ optEntry "mx" r.MX
      ++ optEntry "ttl" r.TTL
      ++ optEntry "status" r.Status := by
  simp only [RecordsService.createPayload, Values.condAdd]
  simp [Values.add, optEntry, List.append_assoc]

/-- `RecordsService.updatePayload` in closed form, with the two `record_id`
sources in their guarded positions. -/
theorem updatePayload_eq (common : CommonParams) (domain recordID : String)
    (r : Record) :
    RecordsService.updatePayload common domain recordID r = common.toPayLoad
      ++ [("domain_id", domain)]
      ++ optEntry "record_id" r.ID
      ++ optEntry "sub_domain" r.Name
      ++ (if r.ID = "" ∧ recordID ≠ "" then [("record_id", recordID)] else [])
      ++ optEntry "record_type" r.Type'
      ++ optEntry "record_line" r.Line
      ++ optEntry "record_line_id" r.LineID
      ++ optEntry "value" r.Value
      ++ optEntry "mx" r.MX
      ++ optEntry "ttl" r.TTL
      ++ optEntry "status" r.Status := by
  simp only [RecordsService.updatePayload, Values.condAdd]
  simp [Values.add, optEntry, List.append_assoc]

/-- `RecordsService.remarkPayload` in closed form. -/
theorem remarkPayload_eq (common : CommonParams) (domain recordID : String)
    (r : Record) :
    RecordsService.remarkPayload common domain recordID r = common.toPayLoad
      ++ [("domain_id", domain)]
      ++ optEntry "record_id" r.ID
      ++ (if r.ID = "" ∧ recordID ≠ "" then [("record_id", recordID)] else [])
      ++ optEntry "remark" r.Remark := by
  simp only [RecordsService.remarkPayload, Values.condAdd]
  simp [Values.add, optEntry, List.append_assoc]

/-! ### Concrete fixtures used by witnesses -/

/-- A constant transport: ignores the payload and returns a fixed outcome. -/
def postOf {α : Type} (o : PostOutcome α) : Post α := fun _ => o

/-- A failure envelope (`status.code = "0"`, message `"boom"`) around a
non-zero domain. -/
def failDW : domainWrapper :=
  ⟨⟨"0", "boom"⟩, DomainInfo.zero, { Name := "x" }⟩

/-- A success envelope (`status.code = "1"`) around a non-zero domain. -/
def okDW : domainWrapper :=
  ⟨⟨"1", ""⟩, DomainInfo.zero, { Name := "x" }⟩

/-- A failure envelope around a non-zero record. -/
def failRW : recordWrapper :=
  ⟨⟨"0", "boom"⟩, DomainInfo.zero, { Remark := "y" }⟩

/-- A success envelope around a non-zero record. -/
def okRW : recordWrapper :=
  ⟨⟨"1", ""⟩, DomainInfo.zero, { Remark := "y" }⟩

/-- A failure envelope around a non-empty domain list. -/
def failDLW : domainListWrapper :=
  ⟨⟨"0", "boom"⟩, DomainInfo.zero, [{ Name := "x" }]⟩

/-- A success envelope around a non-empty domain list. -/
def okDLW : domainListWrapper :=
  ⟨⟨"1", ""⟩, DomainInfo.zero, [{ Name := "x" }]⟩

/-- A failure envelope around non-empty log lines. -/
def failLogW : domainLogWrapper := ⟨⟨"0", "boom"⟩, ["line1"]⟩

/-- A success envelope around non-empty log lines. -/
def okLogW : domainLogWrapper := ⟨⟨"1", ""⟩, ["line1"]⟩

/-- A failure envelope around a non-empty record list. -/
def failRsW : recordsWrapper :=
  ⟨⟨"0", "boom"⟩, DomainInfo.zero, [{ Remark := "y" }]⟩

/-- A success envelope around a non-empty record list. -/
def okRsW : recordsWrapper :=
  ⟨⟨"1", ""⟩, DomainInfo.zero, [{ Remark := "y" }]⟩

/-- A domain-list request carrying only an empty common block. -/
def dlReq : DomainListRequest := { CommonParams := ⟨[]⟩ }

/-- A domain-log request carrying only an empty common block. -/
def lgReq : DomainLogRequest := { CommonParams := ⟨[]⟩ }

/-- A record-list request carrying only an empty common block. -/
def rlReq : RecordListRequest := { CommonParams := ⟨[]⟩ }

/-! ### Claims -/

/-- Claim C1: for `DomainsService.Create`, `Get` and `Delete`, when the
transport call returns no error the operation returns the decoded entity (for
`Delete`, the response descriptor) with no error, regardless of the
envelope's status code — the status code is universally quantified and never
inspected; only a transport error can make these operations fail. -/
theorem claim_C1 (common : CommonParams) (attrs : Domain) (id : Int)
    (pc pg pd : Post domainWrapper) :
    ((pc (DomainsService.createPayload common attrs)).err = none →
      DomainsService.Create common attrs pc =
        ((pc (DomainsService.createPayload common attrs)).body.Domain,
         (pc (DomainsService.createPayload common attrs)).res, none))
    ∧ ((pg (DomainsService.getPayload common id)).err = none →
      DomainsService.Get common id pg =
        ((pg (DomainsService.getPayload common id)).body.Domain,
         (pg (DomainsService.getPayload common id)).res, none))
    ∧ ((pd (DomainsService.getPayload common id)).err = none →
      DomainsService.Delete common id pd =
        ((pd (DomainsService.getPayload common id)).res, none)) := by
  refine ⟨fun h => ?_, fun h => ?_, fun h => ?_⟩ <;>
    simp [DomainsService.Create, DomainsService.Get, DomainsService.Delete, h]

/-- Witness for C1 at a concrete input: a transport success carrying a
failure status code `"0"` still yields the decoded domain with no error. -/
theorem claim_C1_witness :
    ((postOf ⟨some ⟨0⟩, failDW, none⟩) (DomainsService.createPayload ⟨[]⟩ Domain.zero)).err = none
    ∧ DomainsService.Create ⟨[]⟩ Domain.zero (postOf ⟨some ⟨0⟩, failDW, none⟩) =
        (failDW.Domain, some ⟨0⟩, none)
    ∧ DomainsService.Get ⟨[]⟩ 7 (postOf ⟨some ⟨0⟩, failDW, none⟩) =
        (failDW.Domain, some ⟨0⟩, none)
    ∧ DomainsService.Delete ⟨[]⟩ 7 (postOf ⟨some ⟨0⟩, failDW, none⟩) =
        (some ⟨0⟩, none) :=
  ⟨rfl,
   (claim_C1 ⟨[]⟩ Domain.zero 7 (postOf ⟨some ⟨0⟩, failDW, none⟩)
      (postOf ⟨some ⟨0⟩, failDW, none⟩) (postOf ⟨some ⟨0⟩, failDW, none⟩)).1 rfl,
   (claim_C1 ⟨[]⟩ Domain.zero 7 (postOf ⟨some ⟨0⟩, failDW, none⟩)
      (postOf ⟨some ⟨0⟩, failDW, none⟩) (postOf ⟨some ⟨0⟩, failDW, none⟩)).2.1 rfl,
   (claim_C1 ⟨[]⟩ Domain.zero 7 (postOf ⟨some ⟨0⟩, failDW, none⟩)
      (postOf ⟨some ⟨0⟩, failDW, none⟩) (postOf ⟨some ⟨0⟩, failDW, none⟩)).2.2 rfl⟩

/-- Counterexample to claim C2 as stated: in the inline payload construction
of `DomainsService.Create`, a field left at its zero value still appears as a
key — with `Domain{}` (so `GroupID` is the zero `json.Number`, whose
`String()` is `""`), the key `group_id` is present (with value `""`), and so
are `domain` and `is_mark`. -/
theorem claim_C2_counterexample :
    Domain.zero.GroupID = ""
    ∧ (DomainsService.createPayload ⟨[]⟩ Domain.zero).has "group_id" = true
    ∧ (DomainsService.createPayload ⟨[]⟩ Domain.zero).get "group_id" = [""] := by
  exact ⟨rfl, by decide, by decide⟩

/-- Claim C2, amended: for `DomainLogRequest.toPayLoad` (numeric fields in
decimal string form), `DomainListRequest.toPayLOad`,
`RecordListRequest.toPayLOad`, and the optional fields of the inline payload
construction in the record operations `Create`/`Update`/`Remark`, a field
left at its zero/empty value never appears as a key (beyond whatever the
common-parameter block itself carries) and a non-empty field appears with its
exact string form — with two exceptions forced by the code:
`DomainLogRequest.toPayLoad` always emits exactly one of `domain_id`/`domain`
and so sets `domain` to the (possibly empty) `Domain` field whenever
`DomainId` is empty, and `DomainsService.Create` always emits `domain`,
`group_id` and `is_mark`, even when the fields are empty. -/
theorem claim_C2 (lg : DomainLogRequest) (dl : DomainListRequest)
    (common : CommonParams) (attrs : Domain) (rl : RecordListRequest)
    (domain recordID : String) (r : Record) :
    (lg.toPayLoad.get "domain_id" =
      if lg.DomainId ≠ "" then [lg.DomainId]
      else lg.CommonParams.toPayLoad.get "domain_id")
    ∧ (lg.toPayLoad.get "domain" =
      if lg.DomainId ≠ "" then lg.CommonParams.toPayLoad.get "domain"
      else [lg.Domain])
    ∧ (lg.toPayLoad.get "offset" =
      if lg.Offset ≠ 0 then [toString lg.Offset]
      else lg.CommonParams.toPayLoad.get "offset")
    ∧ (lg.toPayLoad.get "length" =
      if lg.Length ≠ 0 then [toString lg.Length]
      else lg.CommonParams.toPayLoad.get "length")
    ∧ (dl.toPayLOad.get "type" =
      if dl.Type' ≠ "" then [dl.Type']
      else dl.CommonParams.toPayLoad.get "type")
    ∧ (dl.toPayLOad.get "offset" =
      if dl.Offset ≠ "" then [dl.Offset]
      else dl.CommonParams.toPayLoad.get "offset")
    ∧ (dl.toPayLOad.get "length" =
      if dl.Length ≠ "" then [dl.Length]
      else dl.CommonParams.toPayLoad.get "length")
    ∧ (dl.toPayLOad.get "group_id" =
      if dl.GroupId ≠ "" then [dl.GroupId]
      else dl.CommonParams.toPayLoad.get "group_id")
    ∧ (dl.toPayLOad.get "keyword" =
      if dl.Keyword ≠ "" then [dl.Keyword]
      else dl.CommonParams.toPayLoad.get "keyword")
    ∧ ((DomainsService.createPayload common attrs).get "domain" = [attrs.Name])
    ∧ ((DomainsService.createPayload common attrs).get "group_id" = [attrs.GroupID])
    ∧ ((DomainsService.createPayload common attrs).get "is_mark" = [attrs.IsMark])
    ∧ (rl.toPayLOad = rl.CommonParams.toPayLoad
        ++ optEntry "domain_id" rl.DomainId
        ++ optEntry "domain" rl.Domain
        ++ optEntry "offset" rl.Offset
        ++ optEntry "length" rl.Length
        ++ optEntry "sub_domain" rl.SubDomain
        ++ optEntry "record_type" rl.RecordType
        ++ optEntry "record_line" rl.RecordLine
        ++ optEntry "record_line_id" rl.RecordLIneId
        ++ optEntry "keyword" rl.KeyWord)
    ∧ (RecordsService.createPayload common domain r = common.toPayLoad
        ++ [("domain_id", domain)]
        ++ optEntry "sub_domain" r.Name
        ++ optEntry "record_type" r.Type'
        ++ optEntry "record_line" r.Line
        ++ optEntry "record_line_id" r.LineID
        ++ optEntry "value" r.Value
        ++ optEntry "mx" r.MX
        ++ optEntry "ttl" r.TTL
        ++ optEntry "status" r.Status)
    ∧ (RecordsService.updatePayload common domain recordID r = common.toPayLoad
        ++ [("domain_id", domain)]
        ++ optEntry "record_id" r.ID
        ++ optEntry "sub_domain" r.Name
        ++ (if r.ID = "" ∧ recordID ≠ "" then [("record_id", recordID)] else [])
        ++ optEntry "record_type" r.Type'
        ++ optEntry "record_line" r.Line
        ++ optEntry "record_line_id" r.LineID
        ++ optEntry "value" r.Value
        ++ optEntry "mx" r.MX
        ++ optEntry "ttl" r.TTL
        ++ optEntry "status" r.Status)
    ∧ (RecordsService.remarkPayload common domain recordID r = common.toPayLoad
        ++ [("domain_id", domain)]
        ++ optEntry "record_id" r.ID
        ++ (if r.ID = "" ∧ recordID ≠ "" then [("record_id", recordID)] else [])
        ++ optEntry "remark" r.Remark) :=
  ⟨domainLog_get_domain_id lg, domainLog_get_domain lg,
   domainLog_get_offset lg, domainLog_get_length lg,
   domainList_get_type dl, domainList_get_offset dl, domainList_get_length dl,
   domainList_get_group_id dl, domainList_get_keyword dl,
   (createPayload_gets common attrs).1, (createPayload_gets common attrs).2.1,
   (createPayload_gets common attrs).2.2,
   recordList_toPayLOad_eq rl, recordCreatePayload_eq common domain r,
   updatePayload_eq common domain recordID r,
   remarkPayload_eq common domain recordID r⟩

/-- Counterexample to claim C3 as stated: `RecordListRequest.toPayLOad` adds
`domain_id` and `domain` through two independent `if`s, so with both fields
non-empty the id field does not suppress the name field — both keys are
emitted. -/
theorem claim_C3_counterexample :
    ({ CommonParams := ⟨[]⟩, DomainId := "1",
       Domain := "d" } : RecordListRequest).DomainId ≠ ""
    ∧ ({ CommonParams := ⟨[]⟩, DomainId := "1",
         Domain := "d" } : RecordListRequest).toPayLOad.has "domain_id" = true
    ∧ ({ CommonParams := ⟨[]⟩, DomainId := "1",
         Domain := "d" } : RecordListRequest).toPayLOad.has "domain" = true := by
  exact ⟨by decide, by decide, by decide⟩

/-- Claim C3, amended: for `DomainLogRequest` the claim holds — a non-empty
`DomainId` means the `domain` key is never emitted (only the common block can
carry it).  For `RecordListRequest` it fails: `domain_id` and `domain` are
emitted independently, each exactly when non-empty, so both keys appear when
both fields are non-empty. -/
theorem claim_C3 (c : DomainLogRequest) (r : RecordListRequest) :
    (c.DomainId ≠ "" →
      c.toPayLoad.get "domain" = c.CommonParams.toPayLoad.get "domain")
    ∧ (r.toPayLOad.get "domain_id" =
        r.CommonParams.toPayLoad.get "domain_id"
          ++ (if r.DomainId ≠ "" then [r.DomainId] else []))
    ∧ (r.toPayLOad.get "domain" =
        r.CommonParams.toPayLoad.get "domain"
          ++ (if r.Domain ≠ "" then [r.Domain] else [])) := by
  refine ⟨fun h => ?_, ?_, ?_⟩
  · rw [domainLog_get_domain c, if_pos h]
  · rw [recordList_toPayLOad_eq r]
    simp [Values.get_append, get_optEntry_self, get_optEntry_ne]
  · rw [recordList_toPayLOad_eq r]
    simp [Values.get_append, get_optEntry_self, get_optEntry_ne]

/-- Witness for C3 at a concrete input: with `DomainId = "7"` the log payload
carries no `domain` key at all (empty common block), and a record-list
request with both identifiers set emits both. -/
theorem claim_C3_witness :
    ({ CommonParams := ⟨[]⟩, DomainId := "7",
       Domain := "z" } : DomainLogRequest).DomainId ≠ ""
    ∧ ({ CommonParams := ⟨[]⟩, DomainId := "7",
         Domain := "z" } : DomainLogRequest).toPayLoad.get "domain" = []
    ∧ ({ CommonParams := ⟨[]⟩, DomainId := "1",
         Domain := "d" } : RecordListRequest).toPayLOad.get "domain_id" = ["1"] :=
  ⟨by decide,
   (claim_C3 { CommonParams := ⟨[]⟩, DomainId := "7", Domain := "z" }
      { CommonParams := ⟨[]⟩, DomainId := "1", Domain := "d" }).1 (by decide),
   by
    have h := (claim_C3 { CommonParams := ⟨[]⟩, DomainId := "7", Domain := "z" }
      { CommonParams := ⟨[]⟩, DomainId := "1", Domain := "d" }).2.1
    simpa using h⟩

/-- Claim C5: in the payloads of `RecordsService.Update` and
`RecordsService.Remark`, a non-empty template `ID` is emitted as `record_id`
and takes precedence; the separately passed `recordID` is emitted only when
the template `ID` is empty, and the two sources are never both emitted —
beyond the common block, the `record_id` values are exactly one of `[ID]`,
`[recordID]` or none. -/
theorem claim_C5 (common : CommonParams) (domain recordID : String)
    (r : Record) :
    ((RecordsService.updatePayload common domain recordID r).get "record_id" =
      common.toPayLoad.get "record_id"
        ++ (if r.ID ≠ "" then [r.ID]
            else if recordID ≠ "" then [recordID] else []))
    ∧ ((RecordsService.remarkPayload common domain recordID r).get "record_id" =
      common.toPayLoad.get "record_id"
        ++ (if r.ID ≠ "" then [r.ID]
            else if recordID ≠ "" then [recordID] else [])) := by
  constructor
  · rw [updatePayload_eq]
    by_cases hID : r.ID = "" <;> by_cases hrid : recordID = "" <;>
      simp [hID, hrid, Values.get_append, get_cons, get_optEntry_self,
        get_optEntry_ne, get_single_self, get_nil]
  · rw [remarkPayload_eq]
    by_cases hID : r.ID = "" <;> by_cases hrid : recordID = "" <;>
      simp [hID, hrid, Values.get_append, get_cons, get_optEntry_self,
        get_optEntry_ne, get_single_self, get_nil]

/-- Claim C4: for every status-checking operation — `DomainsService.List` and
`Log`, and all six `RecordsService` operations — a transport success whose
envelope status code is not `"1"` yields an error embedding the status
message: `"could not get domains: <message>"` everywhere except `Log`, which
uses `"could not get domain logs: <message>"`. -/
theorem claim_C4 (dl : DomainListRequest) (lg : DomainLogRequest)
    (rl : RecordListRequest) (common : CommonParams)
    (domain recordID : String) (r : Record)
    (p1 : Post domainListWrapper) (p2 : Post domainLogWrapper)
    (p3 : Post recordsWrapper) (p4 p5 p6 p7 p8 : Post recordWrapper) :
    ((p1 dl.toPayLOad).err = none →
      (p1 dl.toPayLOad).body.Status.Code ≠ "1" →
      (DomainsService.List dl p1).2.2 =
        some ("could not get domains: " ++ (p1 dl.toPayLOad).body.Status.Message))
    ∧ ((p2 lg.toPayLoad).err = none →
      (p2 lg.toPayLoad).body.Status.Code ≠ "1" →
      (DomainsService.Log lg p2).2 =
        some ("could not get domain logs: " ++ (p2 lg.toPayLoad).body.Status.Message))
    ∧ ((p3 rl.toPayLOad).err = none →
      (p3 rl.toPayLOad).body.Status.Code ≠ "1" →
      (RecordsService.List rl p3).2.2 =
        some ("could not get domains: " ++ (p3 rl.toPayLOad).body.Status.Message))
    ∧ ((p4 (RecordsService.createPayload common domain r)).err = none →
      (p4 (RecordsService.createPayload common domain r)).body.Status.Code ≠ "1" →
      (RecordsService.Create common domain r p4).2.2 =
        some ("could not get domains: " ++
          (p4 (RecordsService.createPayload common domain r)).body.Status.Message))
    ∧ ((p5 (RecordsService.getPayload common domain recordID)).err = none →
      (p5 (RecordsService.getPayload common domain recordID)).body.Status.Code ≠ "1" →
      (RecordsService.Get common domain recordID p5).2.2 =
        some ("could not get domains: " ++
          (p5 (RecordsService.getPayload common domain recordID)).body.Status.Message))
    ∧ ((p6 (RecordsService.updatePayload common domain recordID r)).err = none →
      (p6 (RecordsService.updatePayload common domain recordID r)).body.Status.Code ≠ "1" →
      (RecordsService.Update common domain recordID r p6).2.2 =
        some ("could not get domains: " ++
          (p6 (RecordsService.updatePayload common domain recordID r)).body.Status.Message))
    ∧ ((p7 (RecordsService.remarkPayload common domain recordID r)).err = none →
      (p7 (RecordsService.remarkPayload common domain recordID r)).body.Status.Code ≠ "1" →
      (RecordsService.Remark common domain recordID r p7).2.2 =
        some ("could not get domains: " ++
          (p7 (RecordsService.remarkPayload common domain recordID r)).body.Status.Message))
    ∧ ((p8 (RecordsService.getPayload common domain recordID)).err = none →
      (p8 (RecordsService.getPayload common domain recordID)).body.Status.Code ≠ "1" →
      (RecordsService.Delete common domain recordID p8).2 =
        some ("could not get domains: " ++
          (p8 (RecordsService.getPayload common domain recordID)).body.Status.Message)) := by
  refine ⟨?_, ?_, ?_, ?_, ?_, ?_, ?_, ?_⟩ <;> intro h1 h2 <;>
    simp [DomainsService.List, DomainsService.Log, RecordsService.List,
      RecordsService.Create, RecordsService.Get, RecordsService.Update,
      RecordsService.Remark, RecordsService.Delete, h1, h2]

/-- Witness for C4 at concrete inputs: envelopes with status `"0"` and
message `"boom"` make every status-checking operation fail with the wrapped
message. -/
theorem claim_C4_witness :
    ((postOf ⟨some ⟨0⟩, failDLW, none⟩) dlReq.toPayLOad).err = none
    ∧ ((postOf ⟨some ⟨0⟩, failDLW, none⟩) dlReq.toPayLOad).body.Status.Code ≠ "1"
    ∧ (DomainsService.List dlReq (postOf ⟨some ⟨0⟩, failDLW, none⟩)).2.2 =
        some ("could not get domains: " ++ "boom")
    ∧ (DomainsService.Log lgReq (postOf ⟨some ⟨0⟩, failLogW, none⟩)).2 =
        some ("could not get domain logs: " ++ "boom")
    ∧ (RecordsService.List rlReq (postOf ⟨some ⟨0⟩, failRsW, none⟩)).2.2 =
        some ("could not get domains: " ++ "boom")
    ∧ (RecordsService.Create ⟨[]⟩ "ex.com" Record.zero
        (postOf ⟨some ⟨0⟩, failRW, none⟩)).2.2 =
        some ("could not get domains: " ++ "boom")
    ∧ (RecordsService.Get ⟨[]⟩ "ex.com" "99"
        (postOf ⟨some ⟨0⟩, failRW, none⟩)).2.2 =
        some ("could not get domains: " ++ "boom")
    ∧ (RecordsService.Update ⟨[]⟩ "ex.com" "99" Record.zero
        (postOf ⟨some ⟨0⟩, failRW, none⟩)).2.2 =
        some ("could not get domains: " ++ "boom")
    ∧ (RecordsService.Remark ⟨[]⟩ "ex.com" "99" Record.zero
        (postOf ⟨some ⟨0⟩, failRW, none⟩)).2.2 =
        some ("could not get domains: " ++ "boom")
    ∧ (RecordsService.Delete ⟨[]⟩ "ex.com" "99"
        (postOf ⟨some ⟨0⟩, failRW, none⟩)).2 =
        some ("could not get domains: " ++ "boom") :=
  ⟨rfl, by decide,
   (claim_C4 dlReq lgReq rlReq ⟨[]⟩ "ex.com" "99" Record.zero
      (postOf ⟨some ⟨0⟩, failDLW, none⟩) (postOf ⟨some ⟨0⟩, failLogW, none⟩)
      (postOf ⟨some ⟨0⟩, failRsW, none⟩) (postOf ⟨some ⟨0⟩, failRW, none⟩)
      (postOf ⟨some ⟨0⟩, failRW, none⟩) (postOf ⟨some ⟨0⟩, failRW, none⟩)
      (postOf ⟨some ⟨0⟩, failRW, none⟩) (postOf ⟨some ⟨0⟩, failRW, none⟩)).1
      rfl (by decide),
   (claim_C4 dlReq lgReq rlReq ⟨[]⟩ "ex.com" "99" Record.zero
      (postOf ⟨some ⟨0⟩, failDLW, none⟩) (postOf ⟨some ⟨0⟩, failLogW, none⟩)
      (postOf ⟨some ⟨0⟩, failRsW, none⟩) (postOf ⟨some ⟨0⟩, failRW, none⟩)
      (postOf ⟨some ⟨0⟩, failRW, none⟩) (postOf ⟨some ⟨0⟩, failRW, none⟩)
      (postOf ⟨some ⟨0⟩, failRW, none⟩) (postOf ⟨some ⟨0⟩, failRW, none⟩)).2.1
      rfl (by decide),
   (claim_C4 dlReq lgReq rlReq ⟨[]⟩ "ex.com" "99" Record.zero
      (postOf ⟨some ⟨0⟩, failDLW, none⟩) (postOf ⟨some ⟨0⟩, failLogW, none⟩)
      (postOf ⟨some ⟨0⟩, failRsW, none⟩) (postOf ⟨some ⟨0⟩, failRW, none⟩)
      (postOf ⟨some ⟨0⟩, failRW, none⟩) (postOf ⟨some ⟨0⟩, failRW, none⟩)
      (postOf ⟨some ⟨0⟩, failRW, none⟩) (postOf ⟨some ⟨0⟩, failRW, none⟩)).2.2.1
      rfl (by decide),
   (claim_C4 dlReq lgReq rlReq ⟨[]⟩ "ex.com" "99" Record.zero
      (postOf ⟨some ⟨0⟩, failDLW, none⟩) (postOf ⟨some ⟨0⟩, failLogW, none⟩)
      (postOf ⟨some ⟨0⟩, failRsW, none⟩) (postOf ⟨some ⟨0⟩, failRW, none⟩)
      (postOf ⟨some ⟨0⟩, failRW, none⟩) (postOf ⟨some ⟨0⟩, failRW, none⟩)
      (postOf ⟨some ⟨0⟩, failRW, none⟩) (postOf ⟨some ⟨0⟩, failRW, none⟩)).2.2.2.1
      rfl (by decide),
   (claim_C4 dlReq lgReq rlReq ⟨[]⟩ "ex.com" "99" Record.zero
      (postOf ⟨some ⟨0⟩, failDLW, none⟩) (postOf ⟨some ⟨0⟩, failLogW, none⟩)
      (postOf ⟨some ⟨0⟩, failRsW, none⟩) (postOf ⟨some ⟨0⟩, failRW, none⟩)
      (postOf ⟨some ⟨0⟩, failRW, none⟩) (postOf ⟨some ⟨0⟩, failRW, none⟩)
      (postOf ⟨some ⟨0⟩, failRW, none⟩) (postOf ⟨some ⟨0⟩, failRW, none⟩)).2.2.2.2.1
      rfl (by decide),
   (claim_C4 dlReq lgReq rlReq ⟨[]⟩ "ex.com" "99" Record.zero
      (postOf ⟨some ⟨0⟩, failDLW, none⟩) (postOf ⟨some ⟨0⟩, failLogW, none⟩)
      (postOf ⟨some ⟨0⟩, failRsW, none⟩) (postOf ⟨some ⟨0⟩, failRW, none⟩)
      (postOf ⟨some ⟨0⟩, failRW, none⟩) (postOf ⟨some ⟨0⟩, failRW, none⟩)
      (postOf ⟨some ⟨0⟩, failRW, none⟩) (postOf ⟨some ⟨0⟩, failRW, none⟩)).2.2.2.2.2.1
      rfl (by decide),
   (claim_C4 dlReq lgReq rlReq ⟨[]⟩ "ex.com" "99" Record.zero
      (postOf ⟨some ⟨0⟩, failDLW, none⟩) (postOf ⟨some ⟨0⟩, failLogW, none⟩)
      (postOf ⟨some ⟨0⟩, failRsW, none⟩) (postOf ⟨some ⟨0⟩, failRW, none⟩)
      (postOf ⟨some ⟨0⟩, failRW, none⟩) (postOf ⟨some ⟨0⟩, failRW, none⟩)
      (postOf ⟨some ⟨0⟩, failRW, none⟩) (postOf ⟨some ⟨0⟩, failRW, none⟩)).2.2.2.2.2.2.1
      rfl (by decide),
   (claim_C4 dlReq lgReq rlReq ⟨[]⟩ "ex.com" "99" Record.zero
      (postOf ⟨some ⟨0⟩, failDLW, none⟩) (postOf ⟨some ⟨0⟩, failLogW, none⟩)
      (postOf ⟨some ⟨0⟩, failRsW, none⟩) (postOf ⟨some ⟨0⟩, failRW, none⟩)
      (postOf ⟨some ⟨0⟩, failRW, none⟩) (postOf ⟨some ⟨0⟩, failRW, none⟩)
      (postOf ⟨some ⟨0⟩, failRW, none⟩) (postOf ⟨some ⟨0⟩, failRW, none⟩)).2.2.2.2.2.2.2
      rfl (by decide)⟩

/-- Claim C6: for `RecordsService.Update` and `Remark`, a transport success
with a non-`"1"` status code returns the decoded (possibly partial) record
from the envelope — not the zero value — alongside the error, and a `nil`
descriptor. -/
theorem claim_C6 (common : CommonParams) (domain recordID : String)
    (r : Record) (pu pr : Post recordWrapper) :
    ((pu (RecordsService.updatePayload common domain recordID r)).err = none →
      (pu (RecordsService.updatePayload common domain recordID r)).body.Status.Code ≠ "1" →
      RecordsService.Update common domain recordID r pu =
        ((pu (RecordsService.updatePayload common domain recordID r)).body.Record,
         none,
         some ("could not get domains: " ++
           (pu (RecordsService.updatePayload common domain recordID r)).body.Status.Message)))
    ∧ ((pr (RecordsService.remarkPayload common domain recordID r)).err = none →
      (pr (RecordsService.remarkPayload common domain recordID r)).body.Status.Code ≠ "1" →
      RecordsService.Remark common domain recordID r pr =
        ((pr (RecordsService.remarkPayload common domain recordID r)).body.Record,
         none,
         some ("could not get domains: " ++
           (pr (RecordsService.remarkPayload common domain recordID r)).body.Status.Message))) := by
  constructor <;> intro h1 h2 <;>
    simp [RecordsService.Update, RecordsService.Remark, h1, h2]

/-- Witness for C6 at a concrete input: a `"0"`-status envelope around a
record with `Remark = "y"` makes `Update` and `Remark` return that non-zero
record alongside the error. -/
theorem claim_C6_witness :
    ((postOf ⟨some ⟨0⟩, failRW, none⟩)
      (RecordsService.updatePayload ⟨[]⟩ "ex.com" "99" Record.zero)).err = none
    ∧ RecordsService.Update ⟨[]⟩ "ex.com" "99" Record.zero
        (postOf ⟨some ⟨0⟩, failRW, none⟩) =
        (failRW.Record, none, some ("could not get domains: " ++ "boom"))
    ∧ RecordsService.Remark ⟨[]⟩ "ex.com" "99" Record.zero
        (postOf ⟨some ⟨0⟩, failRW, none⟩) =
        (failRW.Record, none, some ("could not get domains: " ++ "boom")) :=
  ⟨rfl,
   (claim_C6 ⟨[]⟩ "ex.com" "99" Record.zero (postOf ⟨some ⟨0⟩, failRW, none⟩)
      (postOf ⟨some ⟨0⟩, failRW, none⟩)).1 rfl (by decide),
   (claim_C6 ⟨[]⟩ "ex.com" "99" Record.zero (postOf ⟨some ⟨0⟩, failRW, none⟩)
      (postOf ⟨some ⟨0⟩, failRW, none⟩)).2 rfl (by decide)⟩

/-- Claim C7: for every operation, a transport error is returned to the
caller unmodified, the envelope's status code is never inspected (the decoded
body is universally quantified and does not influence the result), and the
entity result is the zero value — a `nil` slice or zero-valued struct. -/
theorem claim_C7 (dl : DomainListRequest) (lg : DomainLogRequest)
    (rl : RecordListRequest) (common : CommonParams) (attrs : Domain)
    (id : Int) (domain recordID : String) (r : Record) (e : GoError)
    (p1 : Post domainListWrapper) (pc pg pd : Post domainWrapper)
    (p2 : Post domainLogWrapper) (p3 : Post recordsWrapper)
    (p4 p5 p6 p7 p8 : Post recordWrapper) :
    ((p1 dl.toPayLOad).err = some e →
      DomainsService.List dl p1 = ([], (p1 dl.toPayLOad).res, some e))
    ∧ ((pc (DomainsService.createPayload common attrs)).err = some e →
      DomainsService.Create common attrs pc =
        (Domain.zero, (pc (DomainsService.createPayload common attrs)).res, some e))
    ∧ ((pg (DomainsService.getPayload common id)).err = some e →
      DomainsService.Get common id pg =
        (Domain.zero, (pg (DomainsService.getPayload common id)).res, some e))
    ∧ ((pd (DomainsService.getPayload common id)).err = some e →
      DomainsService.Delete common id pd =
        ((pd (DomainsService.getPayload common id)).res, some e))
    ∧ ((p2 lg.toPayLoad).err = some e →
      DomainsService.Log lg p2 = ([], some e))
    ∧ ((p3 rl.toPayLOad).err = some e →
      RecordsService.List rl p3 = ([], (p3 rl.toPayLOad).res, some e))
    ∧ ((p4 (RecordsService.createPayload common domain r)).err = some e →
      RecordsService.Create common domain r p4 =
        (Record.zero, (p4 (RecordsService.createPayload common domain r)).res, some e))
    ∧ ((p5 (RecordsService.getPayload common domain recordID)).err = some e →
      RecordsService.Get common domain recordID p5 =
        (Record.zero, (p5 (RecordsService.getPayload common domain recordID)).res, some e))
    ∧ ((p6 (RecordsService.updatePayload common domain recordID r)).err = some e →
      RecordsService.Update common domain recordID r p6 =
        (Record.zero, (p6 (RecordsService.updatePayload common domain recordID r)).res, some e))
    ∧ ((p7 (RecordsService.remarkPayload common domain recordID r)).err = some e →
      RecordsService.Remark common domain recordID r p7 =
        (Record.zero, (p7 (RecordsService.remarkPayload common domain recordID r)).res, some e))
    ∧ ((p8 (RecordsService.getPayload common domain recordID)).err = some e →
      RecordsService.Delete common domain recordID p8 =
        ((p8 (RecordsService.getPayload common domain recordID)).res, some e)) := by
  refine ⟨?_, ?_, ?_, ?_, ?_, ?_, ?_, ?_, ?_, ?_, ?_⟩ <;> intro h1 <;>
    simp [DomainsService.List, DomainsService.Create, DomainsService.Get,
      DomainsService.Delete, DomainsService.Log, RecordsService.List,
      RecordsService.Create, RecordsService.Get, RecordsService.Update,
      RecordsService.Remark, RecordsService.Delete, h1]

/-- Witness for C7 at a concrete input: a transport failure (`"netfail"`,
`nil` descriptor, body decoded up to a `"0"` status) yields the zero entity
and that very error for each operation. -/
theorem claim_C7_witness :
    ((postOf ⟨none, failDLW, some "netfail"⟩) dlReq.toPayLOad).err = some "netfail"
    ∧ DomainsService.List dlReq (postOf ⟨none, failDLW, some "netfail"⟩) =
        ([], none, some "netfail")
    ∧ DomainsService.Create ⟨[]⟩ Domain.zero
        (postOf ⟨none, failDW, some "netfail"⟩) =
        (Domain.zero, none, some "netfail")
    ∧ DomainsService.Get ⟨[]⟩ 7 (postOf ⟨none, failDW, some "netfail"⟩) =
        (Domain.zero, none, some "netfail")
    ∧ DomainsService.Delete ⟨[]⟩ 7 (postOf ⟨none, failDW, some "netfail"⟩) =
        (none, some "netfail")
    ∧ DomainsService.Log lgReq (postOf ⟨none, failLogW, some "netfail"⟩) =
        ([], some "netfail")
    ∧ RecordsService.List rlReq (postOf ⟨none, failRsW, some "netfail"⟩) =
        ([], none, some "netfail")
    ∧ RecordsService.Create ⟨[]⟩ "ex.com" Record.zero
        (postOf ⟨none, failRW, some "netfail"⟩) =
        (Record.zero, none, some "netfail")
    ∧ RecordsService.Get ⟨[]⟩ "ex.com" "99"
        (postOf ⟨none, failRW, some "netfail"⟩) =
        (Record.zero, none, some "netfail")
    ∧ RecordsService.Update ⟨[]⟩ "ex.com" "99" Record.zero
        (postOf ⟨none, failRW, some "netfail"⟩) =
        (Record.zero, none, some "netfail")
    ∧ RecordsService.Remark ⟨[]⟩ "ex.com" "99" Record.zero
        (postOf ⟨none, failRW, some "netfail"⟩) =
        (Record.zero, none, some "netfail")
    ∧ RecordsService.Delete ⟨[]⟩ "ex.com" "99"
        (postOf ⟨none, failRW, some "netfail"⟩) =
        (none, some "netfail") := by
  have h := claim_C7 dlReq lgReq rlReq ⟨[]⟩ Domain.zero 7 "ex.com" "99"
    Record.zero "netfail"
    (postOf ⟨none, failDLW, some "netfail"⟩)
    (postOf ⟨none, failDW, some "netfail"⟩)
    (postOf ⟨none, failDW, some "netfail"⟩)
    (postOf ⟨none, failDW, some "netfail"⟩)
    (postOf ⟨none, failLogW, some "netfail"⟩)
    (postOf ⟨none, failRsW, some "netfail"⟩)
    (postOf ⟨none, failRW, some "netfail"⟩)
    (postOf ⟨none, failRW, some "netfail"⟩)
    (postOf ⟨none, failRW, some "netfail"⟩)
    (postOf ⟨none, failRW, some "netfail"⟩)
    (postOf ⟨none, failRW, some "netfail"⟩)
  exact ⟨rfl, h.1 rfl, h.2.1 rfl, h.2.2.1 rfl, h.2.2.2.1 rfl, h.2.2.2.2.1 rfl,
    h.2.2.2.2.2.1 rfl, h.2.2.2.2.2.2.1 rfl, h.2.2.2.2.2.2.2.1 rfl,
    h.2.2.2.2.2.2.2.2.1 rfl, h.2.2.2.2.2.2.2.2.2.1 rfl,
    h.2.2.2.2.2.2.2.2.2.2 rfl⟩

/-- Claim C8: for every entity-returning operation, a transport success with
status code `"1"` returns exactly the envelope's operation-specific payload
field (domains, records, the single domain/record, or the log lines), the
descriptor, and no error. -/
theorem claim_C8 (dl : DomainListRequest) (lg : DomainLogRequest)
    (rl : RecordListRequest) (common : CommonParams) (attrs : Domain)
    (id : Int) (domain recordID : String) (r : Record)
    (p1 : Post domainListWrapper) (pc pg : Post domainWrapper)
    (p2 : Post domainLogWrapper) (p3 : Post recordsWrapper)
    (p4 p5 p6 p7 : Post recordWrapper) :
    ((p1 dl.toPayLOad).err = none →
      (p1 dl.toPayLOad).body.Status.Code = "1" →
      DomainsService.List dl p1 =
        ((p1 dl.toPayLOad).body.Domains, (p1 dl.toPayLOad).res, none))
    ∧ ((pc (DomainsService.createPayload common attrs)).err = none →
      (pc (DomainsService.createPayload common attrs)).body.Status.Code = "1" →
      DomainsService.Create common attrs pc =
        ((pc (DomainsService.createPayload common attrs)).body.Domain,
         (pc (DomainsService.createPayload common attrs)).res, none))
    ∧ ((pg (DomainsService.getPayload common id)).err = none →
      (pg (DomainsService.getPayload common id)).body.Status.Code = "1" →
      DomainsService.Get common id pg =
        ((pg (DomainsService.getPayload common id)).body.Domain,
         (pg (DomainsService.getPayload common id)).res, none))
    ∧ ((p2 lg.toPayLoad).err = none →
      (p2 lg.toPayLoad).body.Status.Code = "1" →
      DomainsService.Log lg p2 = ((p2 lg.toPayLoad).body.Log, none))
    ∧ ((p3 rl.toPayLOad).err = none →
      (p3 rl.toPayLOad).body.Status.Code = "1" →
      RecordsService.List rl p3 =
        ((p3 rl.toPayLOad).body.Records, (p3 rl.toPayLOad).res, none))
    ∧ ((p4 (RecordsService.createPayload common domain r)).err = none →
      (p4 (RecordsService.createPayload common domain r)).body.Status.Code = "1" →
      RecordsService.Create common domain r p4 =
        ((p4 (RecordsService.createPayload common domain r)).body.Record,
         (p4 (RecordsService.createPayload common domain r)).res, none))
    ∧ ((p5 (RecordsService.getPayload common domain recordID)).err = none →
      (p5 (RecordsService.getPayload common domain recordID)).body.Status.Code = "1" →
      RecordsService.Get common domain recordID p5 =
        ((p5 (RecordsService.getPayload common domain recordID)).body.Record,
         (p5 (RecordsService.getPayload common domain recordID)).res, none))
    ∧ ((p6 (RecordsService.updatePayload common domain recordID r)).err = none →
      (p6 (RecordsService.updatePayload common domain recordID r)).body.Status.Code = "1" →
      RecordsService.Update common domain recordID r p6 =
        ((p6 (RecordsService.updatePayload common domain recordID r)).body.Record,
         (p6 (RecordsService.updatePayload common domain recordID r)).res, none))
    ∧ ((p7 (RecordsService.remarkPayload common domain recordID r)).err = none →
      (p7 (RecordsService.remarkPayload common domain recordID r)).body.Status.Code = "1" →
      RecordsService.Remark common domain recordID r p7 =
        ((p7 (RecordsService.remarkPayload common domain recordID r)).body.Record,
         (p7 (RecordsService.remarkPayload common domain recordID r)).res, none)) := by
  refine ⟨?_, ?_, ?_, ?_, ?_, ?_, ?_, ?_, ?_⟩ <;> intro h1 h2 <;>
    simp [DomainsService.List, DomainsService.Create, DomainsService.Get,
      DomainsService.Log, RecordsService.List, RecordsService.Create,
      RecordsService.Get, RecordsService.Update, RecordsService.Remark,
      h1, h2]

/-- Witness for C8 at a concrete input: success envelopes with status `"1"`
yield the populated entity fields with no error. -/
theorem claim_C8_witness :
    ((postOf ⟨some ⟨0⟩, okDLW, none⟩) dlReq.toPayLOad).err = none
    ∧ ((postOf ⟨some ⟨0⟩, okDLW, none⟩) dlReq.toPayLOad).body.Status.Code = "1"
    ∧ DomainsService.List dlReq (postOf ⟨some ⟨0⟩, okDLW, none⟩) =
        (okDLW.Domains, some ⟨0⟩, none)
    ∧ DomainsService.Create ⟨[]⟩ Domain.zero (postOf ⟨some ⟨0⟩, okDW, none⟩) =
        (okDW.Domain, some ⟨0⟩, none)
    ∧ DomainsService.Get ⟨[]⟩ 7 (postOf ⟨some ⟨0⟩, okDW, none⟩) =
        (okDW.Domain, some ⟨0⟩, none)
    ∧ DomainsService.Log lgReq (postOf ⟨some ⟨0⟩, okLogW, none⟩) =
        (okLogW.Log, none)
    ∧ RecordsService.List rlReq (postOf ⟨some ⟨0⟩, okRsW, none⟩) =
        (okRsW.Records, some ⟨0⟩, none)
    ∧ RecordsService.Create ⟨[]⟩ "ex.com" Record.zero
        (postOf ⟨some ⟨0⟩, okRW, none⟩) = (okRW.Record, some ⟨0⟩, none)
    ∧ RecordsService.Get ⟨[]⟩ "ex.com" "99"
        (postOf ⟨some ⟨0⟩, okRW, none⟩) = (okRW.Record, some ⟨0⟩, none)
    ∧ RecordsService.Update ⟨[]⟩ "ex.com" "99" Record.zero
        (postOf ⟨some ⟨0⟩, okRW, none⟩) = (okRW.Record, some ⟨0⟩, none)
    ∧ RecordsService.Remark ⟨[]⟩ "ex.com" "99" Record.zero
        (postOf ⟨some ⟨0⟩, okRW, none⟩) = (okRW.Record, some ⟨0⟩, none) := by
  have h := claim_C8 dlReq lgReq rlReq ⟨[]⟩ Domain.zero 7 "ex.com" "99"
    Record.zero
    (postOf ⟨some ⟨0⟩, okDLW, none⟩)
    (postOf ⟨some ⟨0⟩, okDW, none⟩)
    (postOf ⟨some ⟨0⟩, okDW, none⟩)
    (postOf ⟨some ⟨0⟩, okLogW, none⟩)
    (postOf ⟨some ⟨0⟩, okRsW, none⟩)
    (postOf ⟨some ⟨0⟩, okRW, none⟩)
    (postOf ⟨some ⟨0⟩, okRW, none⟩)
    (postOf ⟨some ⟨0⟩, okRW, none⟩)
    (postOf ⟨some ⟨0⟩, okRW, none⟩)
  exact ⟨rfl, rfl, h.1 rfl rfl, h.2.1 rfl rfl, h.2.2.1 rfl rfl,
    h.2.2.2.1 rfl rfl, h.2.2.2.2.1 rfl rfl, h.2.2.2.2.2.1 rfl rfl,
    h.2.2.2.2.2.2.1 rfl rfl, h.2.2.2.2.2.2.2.1 rfl rfl,
    h.2.2.2.2.2.2.2.2 rfl rfl⟩

/-- Claim C9 (implicit): `RecordsService.Create` and `RecordsService.Get`
also return the partially decoded record from the envelope alongside the
error when the status code is not `"1"` — the same partial-value-on-error
behaviour as `Update` and `Remark`. -/
theorem claim_C9 (common : CommonParams) (domain recordID : String)
    (r : Record) (p4 p5 : Post recordWrapper) :
    ((p4 (RecordsService.createPayload common domain r)).err = none →
      (p4 (RecordsService.createPayload common domain r)).body.Status.Code ≠ "1" →
      RecordsService.Create common domain r p4 =
        ((p4 (RecordsService.createPayload common domain r)).body.Record,
         none,
         some ("could not get domains: " ++
           (p4 (RecordsService.createPayload common domain r)).body.Status.Message)))
    ∧ ((p5 (RecordsService.getPayload common domain recordID)).err = none →
      (p5 (RecordsService.getPayload common domain recordID)).body.Status.Code ≠ "1" →
      RecordsService.Get common domain recordID p5 =
        ((p5 (RecordsService.getPayload common domain recordID)).body.Record,
         none,
         some ("could not get domains: " ++
           (p5 (RecordsService.getPayload common domain recordID)).body.Status.Message))) := by
  constructor <;> intro h1 h2 <;>
    simp [RecordsService.Create, RecordsService.Get, h1, h2]

/-- Witness for C9 at a concrete input: a `"0"`-status envelope around a
record with `Remark = "y"` makes `Create` and `Get` return that non-zero
record alongside the error. -/
theorem claim_C9_witness :
    ((postOf ⟨some ⟨0⟩, failRW, none⟩)
      (RecordsService.createPayload ⟨[]⟩ "ex.com" Record.zero)).err = none
    ∧ RecordsService.Create ⟨[]⟩ "ex.com" Record.zero
        (postOf ⟨some ⟨0⟩, failRW, none⟩) =
        (failRW.Record, none, some ("could not get domains: " ++ "boom"))
    ∧ RecordsService.Get ⟨[]⟩ "ex.com" "99"
        (postOf ⟨some ⟨0⟩, failRW, none⟩) =
        (failRW.Record, none, some ("could not get domains: " ++ "boom")) :=
  ⟨rfl,
   (claim_C9 ⟨[]⟩ "ex.com" "99" Record.zero (postOf ⟨some ⟨0⟩, failRW, none⟩)
      (postOf ⟨some ⟨0⟩, failRW, none⟩)).1 rfl (by decide),
   (claim_C9 ⟨[]⟩ "ex.com" "99" Record.zero (postOf ⟨some ⟨0⟩, failRW, none⟩)
      (postOf ⟨some ⟨0⟩, failRW, none⟩)).2 rfl (by decide)⟩

/-- Claim C10 (implicit): every status-checking operation that returns a
response descriptor — `DomainsService.List` and all six `RecordsService`
operations — returns a `nil` descriptor when the status code is not `"1"`,
discarding the descriptor of the successful HTTP call. -/
theorem claim_C10 (dl : DomainListRequest) (rl : RecordListRequest)
    (common : CommonParams) (domain recordID : String) (r : Record)
    (p1 : Post domainListWrapper) (p3 : Post recordsWrapper)
    (p4 p5 p6 p7 p8 : Post recordWrapper) :
    ((p1 dl.toPayLOad).err = none →
      (p1 dl.toPayLOad).body.Status.Code ≠ "1" →
      (DomainsService.List dl p1).2.1 = none)
    ∧ ((p3 rl.toPayLOad).err = none →
      (p3 rl.toPayLOad).body.Status.Code ≠ "1" →
      (RecordsService.List rl p3).2.1 = none)
    ∧ ((p4 (RecordsService.createPayload common domain r)).err = none →
      (p4 (RecordsService.createPayload common domain r)).body.Status.Code ≠ "1" →
      (RecordsService.Create common domain r p4).2.1 = none)
    ∧ ((p5 (RecordsService.getPayload common domain recordID)).err = none →
      (p5 (RecordsService.getPayload common domain recordID)).body.Status.Code ≠ "1" →
      (RecordsService.Get common domain recordID p5).2.1 = none)
    ∧ ((p6 (RecordsService.updatePayload common domain recordID r)).err = none →
      (p6 (RecordsService.updatePayload common domain recordID r)).body.Status.Code ≠ "1" →
      (RecordsService.Update common domain recordID r p6).2.1 = none)
    ∧ ((p7 (RecordsService.remarkPayload common domain recordID r)).err = none →
      (p7 (RecordsService.remarkPayload common domain recordID r)).body.Status.Code ≠ "1" →
      (RecordsService.Remark common domain recordID r p7).2.1 = none)
    ∧ ((p8 (RecordsService.getPayload common domain recordID)).err = none →
      (p8 (RecordsService.getPayload common domain recordID)).body.Status.Code ≠ "1" →
      (RecordsService.Delete common domain recordID p8).1 = none) := by
  refine ⟨?_, ?_, ?_, ?_, ?_, ?_, ?_⟩ <;> intro h1 h2 <;>
    simp [DomainsService.List, RecordsService.List, RecordsService.Create,
      RecordsService.Get, RecordsService.Update, RecordsService.Remark,
      RecordsService.Delete, h1, h2]

/-- Witness for C10 at a concrete input: with a non-`nil` descriptor from the
transport and a `"0"` status, each operation returns a `nil` descriptor. -/
theorem claim_C10_witness :
    ((postOf ⟨some ⟨0⟩, failDLW, none⟩) dlReq.toPayLOad).err = none
    ∧ ((postOf ⟨some ⟨0⟩, failDLW, none⟩) dlReq.toPayLOad).res = some ⟨0⟩
    ∧ (DomainsService.List dlReq (postOf ⟨some ⟨0⟩, failDLW, none⟩)).2.1 = none
    ∧ (RecordsService.List rlReq (postOf ⟨some ⟨0⟩, failRsW, none⟩)).2.1 = none
    ∧ (RecordsService.Create ⟨[]⟩ "ex.com" Record.zero
        (postOf ⟨some ⟨0⟩, failRW, none⟩)).2.1 = none
    ∧ (RecordsService.Get ⟨[]⟩ "ex.com" "99"
        (postOf ⟨some ⟨0⟩, failRW, none⟩)).2.1 = none
    ∧ (RecordsService.Update ⟨[]⟩ "ex.com" "99" Record.zero
        (postOf ⟨some ⟨0⟩, failRW, none⟩)).2.1 = none
    ∧ (RecordsService.Remark ⟨[]⟩ "ex.com" "99" Record.zero
        (postOf ⟨some ⟨0⟩, failRW, none⟩)).2.1 = none
    ∧ (RecordsService.Delete ⟨[]⟩ "ex.com" "99"
        (postOf ⟨some ⟨0⟩, failRW, none⟩)).1 = none := by
  have h := claim_C10 dlReq rlReq ⟨[]⟩ "ex.com" "99" Record.zero
    (postOf ⟨some ⟨0⟩, failDLW, none⟩)
    (postOf ⟨some ⟨0⟩, failRsW, none⟩)
    (postOf ⟨some ⟨0⟩, failRW, none⟩)
    (postOf ⟨some ⟨0⟩, failRW, none⟩)
    (postOf ⟨some ⟨0⟩, failRW, none⟩)
    (postOf ⟨some ⟨0⟩, failRW, none⟩)
    (postOf ⟨some ⟨0⟩, failRW, none⟩)
  exact ⟨rfl, rfl, h.1 rfl (by decide), h.2.1 rfl (by decide),
    h.2.2.1 rfl (by decide), h.2.2.2.1 rfl (by decide),
    h.2.2.2.2.1 rfl (by decide), h.2.2.2.2.2.1 rfl (by decide),
    h.2.2.2.2.2.2 rfl (by decide)⟩

end Dnspod
